import Mathlib

/- Verification of the escape-profile similarity engine of
`mds_escape_profiles.ipynb` (the `escape_similarity` and `dissimilarity`
functions and the per-group loop that invokes them).  The observation
table is embedded as a list of rows; the site-level metric values are
embedded as rationals (so that deduplication, pivoting and the norm
checks stay decidable) and the similarity itself is real-valued because
of the square-root normalisation. -/

/-- One row of the escape-fraction table restricted to the columns used by
`escape_similarity`: the `condition` identifier, the `site` number and the
site-level escape metric (the `site_metric` column). -/
structure Row where
  condition : String
  site : ℤ
  metric : ℚ
  deriving DecidableEq, Repr

/-- First-occurrence deduplication of a list, as performed by
`pandas.DataFrame.drop_duplicates` and `pandas.Series.unique` (keep the
first copy of each duplicated element).  `seen` accumulates elements
already emitted. -/
def firstUniqAux {α : Type} [DecidableEq α] (seen : List α) : List α → List α
  | [] => []
  | x :: xs =>
      if x ∈ seen then firstUniqAux seen xs
      else x :: firstUniqAux (x :: seen) xs

/-- `df.drop_duplicates()` on the three retained columns (a row is exactly
those three columns, so this is row deduplication). -/
def dedupRows (df : List Row) : List Row := firstUniqAux [] df

/-- `df['condition'].unique()` evaluated on the deduplicated table:
the distinct condition identifiers in first-appearance order. -/
def conditionsOf (df : List Row) : List String :=
  firstUniqAux [] ((dedupRows df).map Row.condition)

/-- The index of `pivot_table(index='site', ...)`: the distinct sites of
the deduplicated table.  (pandas sorts this index; the order of the sites
is irrelevant here because every use below sums over them.) -/
def sitesOf (df : List Row) : List ℤ :=
  firstUniqAux [] ((dedupRows df).map Row.site)

/-- The deduplicated rows falling in one (condition, site) cell of the
pivot table. -/
def cellRows (df : List Row) (c : String) (s : ℤ) : List Row :=
  (dedupRows df).filter (fun r => r.condition = c ∧ r.site = s)

/-- One entry of
`assign(metric=lambda x: x[site_metric]**p).pivot_table(index='site',
columns='condition', values='metric', fill_value=0)`: the mean (the
default `aggfunc` of `pivot_table`) of the exponentiated metric over the
deduplicated rows of the cell, and `0` (the `fill_value`) when the cell
is empty. -/
def pivotValue (df : List Row) (p : ℕ) (c : String) (s : ℤ) : ℚ :=
  let rs := cellRows df c s
  if rs = [] then 0 else (rs.map (fun r => r.metric ^ p)).sum / rs.length

/-- The squared Euclidean norm of one condition's zero-filled,
exponentiated profile column — the square of
`numpy.linalg.norm(x, axis=0)`.  Kept in ℚ so that the zero-norm test is
decidable. -/
def normSq (df : List Row) (p : ℕ) (c : String) : ℚ :=
  ((sitesOf df).map (fun s => pivotValue df p c s ^ 2)).sum

/-- The dot product of the two (unnormalised) profile columns. -/
def dotQ (df : List Row) (p : ℕ) (c1 c2 : String) : ℚ :=
  ((sitesOf df).map (fun s => pivotValue df p c1 s * pivotValue df p c2 s)).sum

/-- The scalar similarity computed for one ordered pair of conditions by
the loop body of `escape_similarity`: each selected column is divided by
its Euclidean norm (`transform(lambda x: x / numpy.linalg.norm(x, axis=0))`),
the two normalised columns are multiplied elementwise
(`assign(similarity=lambda x: x[cond1] * x[cond2])`) and summed over the
site index (`similarity.sum()`). -/
noncomputable def simVal (df : List Row) (p : ℕ) (c1 c2 : String) : ℝ :=
  ((sitesOf df).map (fun s =>
    ((pivotValue df p c1 s : ℝ) / Real.sqrt (normSq df p c1)) *
    ((pivotValue df p c2 s : ℝ) / Real.sqrt (normSq df p c2)))).sum

/-- Error taxonomy of the engine.  `domainError` stands for the one
place the pipeline genuinely raises on a mathematically undefined value:
a zero-norm profile column makes the normalised entries 0/0 = NaN so that
`assert similarity.notnull().all()` raises.  `invalidInput` stands for
the failed `assert set(conditions_to_plot).issubset(...)`, and
`invalidConfiguration` for the `raise ValueError` on an unknown
dissimilarity method name. -/
inductive MdsError where
  | domainError : MdsError
  | invalidInput : MdsError
  | invalidConfiguration : String → MdsError
  deriving DecidableEq, Repr

/-- One iteration of the pair loop of `escape_similarity`.  When a
selected column has zero norm, every normalised entry of that column is
0/0 = NaN, the elementwise product is NaN at every site, and
`assert similarity.notnull().all()` fails instead of returning a value;
this is the `domainError` branch.  Otherwise the finite scalar `simVal`
is returned. -/
noncomputable def pairwise_similarity (df : List Row) (p : ℕ) (c1 c2 : String) :
    Except MdsError ℝ :=
  if normSq df p c1 = 0 ∨ normSq df p c2 = 0 then Except.error MdsError.domainError
  else Except.ok (simVal df p c1 c2)

/-- The square similarity data frame assembled by `escape_similarity` from
the row-major list of pairwise values
(`numpy.array(similarities).reshape(len(conditions), len(conditions))`
with `columns=conditions, index=conditions`). -/
noncomputable def similarityRows (df : List Row) (p : ℕ) : List (List ℝ) :=
  (conditionsOf df).map (fun c1 =>
    (conditionsOf df).map (fun c2 => simVal df p c1 c2))

/-- The full `escape_similarity(df, p)` call.  The loop runs every ordered
pair, including each self-pair, so it raises (via the NaN assertion, see
`pairwise_similarity`) exactly when some condition's profile column has
zero norm; otherwise it returns the full matrix. -/
noncomputable def escape_similarity (df : List Row) (p : ℕ) :
    Except MdsError (List (List ℝ)) :=
  if ∀ c ∈ conditionsOf df, normSq df p c ≠ 0 then Except.ok (similarityRows df p)
  else Except.error MdsError.domainError

/-- A value produced by the floating-point arithmetic of the
dissimilarity transform: either a finite real, or one of the two
non-finite results `numpy.log` can hand back under numpy's default error
state (the notebook never calls `numpy.seterr`, so non-finite results
come with a RuntimeWarning only — nothing is raised). -/
inductive NumpyFloat where
  | finite : ℝ → NumpyFloat
  | posInf : NumpyFloat
  | nan : NumpyFloat

/-- The `dissimilarity(similarity, method)` function.  `one_minus`
returns the finite value `1 - s` for any real `s`.  `minus_log` returns
`-numpy.log(s)`: the finite value `-log s` for `s > 0`, while at `s = 0`
`numpy.log` yields `-inf` (so the negation is `+inf`) and for `s < 0` it
yields NaN — in both cases a value is returned, accompanied only by a
RuntimeWarning.  Any other method name hits
`raise ValueError(f"invalid method {method}")`. -/
noncomputable def dissimilarity (s : ℝ) (method : String) :
    Except MdsError NumpyFloat :=
  if method = "one_minus" then Except.ok (NumpyFloat.finite (1 - s))
  else if method = "minus_log" then
    if s = 0 then Except.ok NumpyFloat.posInf
    else if s < 0 then Except.ok NumpyFloat.nan
    else Except.ok (NumpyFloat.finite (-Real.log s))
  else Except.error (MdsError.invalidConfiguration method)

/-- `similarities.applymap(lambda x: dissimilarity(x, method=...))`:
the dissimilarity transform applied to every entry of the similarity
matrix, propagating the first failure. -/
noncomputable def applymapDissimilarity (m : List (List ℝ)) (method : String) :
    Except MdsError (List (List NumpyFloat)) :=
  m.mapM (fun row => row.mapM (fun s => dissimilarity s method))

/-- One iteration of the plotting loop, up to the dissimilarity matrix
that is handed to the (external) multidimensional-scaling solver:
first `assert set(conditions_to_plot).issubset(set(escape_fracs['condition']))`
(failure is the `invalidInput` branch), then the data frame is filtered to
the requested conditions, `escape_similarity(df)` is computed with its
default exponent `p = 1`, and only then is the dissimilarity transform
applied entrywise.  (The display-name remapping of conditions is omitted:
it is a pure renaming and none of the verified properties mention it.) -/
noncomputable def mds_group (escape_fracs : List Row)
    (conditions_to_plot : List String) (method : String) :
    Except MdsError (List (List NumpyFloat)) :=
  if ∀ c ∈ conditions_to_plot, c ∈ escape_fracs.map Row.condition then
    match escape_similarity
        (escape_fracs.filter (fun r => r.condition ∈ conditions_to_plot)) 1 with
    | Except.error e => Except.error e
    | Except.ok m => applymapDissimilarity m method
  else Except.error MdsError.invalidInput

/-- Entry (i, j) of a matrix represented as a list of rows (defaulting to
0 out of range; all uses are in range). -/
noncomputable def entry (m : List (List ℝ)) (i j : ℕ) : ℝ :=
  (m.getD i []).getD j 0

/-- The end-to-end example table: observations
{(A,1): 1.0, (A,2): 1.0, (B,1): 1.0, (B,2): 0.0}. -/
def dfExample : List Row :=
  [⟨"A", 1, 1⟩, ⟨"A", 2, 1⟩, ⟨"B", 1, 1⟩, ⟨"B", 2, 0⟩]

/- General lemmas about the embedding. -/

/-- Casting a sum of rationals to the reals, termwise. -/
theorem ratCast_list_sum (l : List ℚ) :
    ((l.sum : ℚ) : ℝ) = (l.map (fun q : ℚ => (q : ℝ))).sum := by
  induction l with
  | nil => simp
  | cons a t ih => simp only [List.sum_cons, List.map_cons]; push_cast; rfl

/-- A squared norm is a sum of squares, hence non-negative. -/
theorem normSq_nonneg (df : List Row) (p : ℕ) (c : String) : 0 ≤ normSq df p c := by
  unfold normSq
  apply List.sum_nonneg
  intro x hx
  obtain ⟨s, _, rfl⟩ := List.mem_map.mp hx
  positivity

/-- The per-site sum of products of normalised entries equals the dot
product of the raw columns divided by the product of the two norms. -/
theorem simVal_eq_div (df : List Row) (p : ℕ) (c1 c2 : String) :
    simVal df p c1 c2 =
      (dotQ df p c1 c2 : ℝ) /
        (Real.sqrt (normSq df p c1) * Real.sqrt (normSq df p c2)) := by
  unfold simVal dotQ
  rw [ratCast_list_sum, List.map_map, div_eq_mul_inv, ← List.sum_map_mul_right]
  refine congrArg List.sum (List.map_congr_left ?_)
  intro s _
  simp only [Function.comp_apply, Rat.cast_mul]
  rw [div_mul_div_comm, div_eq_mul_inv]

/-- The similarity computation of one ordered pair is symmetric in the
two conditions. -/
theorem simVal_comm (df : List Row) (p : ℕ) (c1 c2 : String) :
    simVal df p c1 c2 = simVal df p c2 c1 := by
  unfold simVal
  refine congrArg List.sum (List.map_congr_left ?_)
  intro s _
  ring

/-- The dot product of a column with itself is its squared norm. -/
theorem dotQ_self (df : List Row) (p : ℕ) (c : String) :
    dotQ df p c c = normSq df p c := by
  unfold dotQ normSq
  refine congrArg List.sum (List.map_congr_left ?_)
  intro s _
  ring

/-- A self-pair similarity is exactly 1 whenever the profile has non-zero
norm. -/
theorem simVal_self (df : List Row) (p : ℕ) (c : String) (h : normSq df p c ≠ 0) :
    simVal df p c c = 1 := by
  rw [simVal_eq_div, dotQ_self,
    Real.mul_self_sqrt (by exact_mod_cast normSq_nonneg df p c), div_self]
  exact_mod_cast h

/-- `getD` through `map`, inside the bounds. -/
theorem list_getD_map {α β : Type} (l : List α) (f : α → β) (d : β) (i : ℕ)
    (h : i < l.length) : (l.map f).getD i d = f (l.get ⟨i, h⟩) := by
  rw [List.getD_eq_getElem _ _ (by simpa using h), List.getElem_map]
  simp [List.get_eq_getElem]

/-- Entries of the assembled similarity data frame are the pairwise
values at the corresponding conditions. -/
theorem entry_similarityRows (df : List Row) (p : ℕ) (i j : ℕ)
    (hi : i < (conditionsOf df).length) (hj : j < (conditionsOf df).length) :
    entry (similarityRows df p) i j =
      simVal df p ((conditionsOf df).get ⟨i, hi⟩) ((conditionsOf df).get ⟨j, hj⟩) := by
  unfold entry similarityRows
  rw [list_getD_map _ _ _ i hi, list_getD_map _ _ _ j hj]

/-- When every requested condition has a non-zero-norm profile the full
matrix call succeeds and returns the assembled data frame. -/
theorem escape_similarity_ok (df : List Row) (p : ℕ)
    (h : ∀ c ∈ conditionsOf df, normSq df p c ≠ 0) :
    escape_similarity df p = Except.ok (similarityRows df p) := by
  unfold escape_similarity
  exact if_pos h

/-- Running one plotting-loop iteration on a table whose single condition
has an all-zero profile fails inside the similarity computation, whatever
dissimilarity method is configured. -/
theorem mds_group_zero_profile (m : String) :
    mds_group [⟨"A", 1, 0⟩] ["A"] m = Except.error MdsError.domainError := by
  have hfilter : ([⟨"A", 1, 0⟩] : List Row).filter
      (fun r => r.condition ∈ ["A"]) = [⟨"A", 1, 0⟩] := by
    simp +decide [List.filter]
  have hns : normSq [⟨"A", 1, 0⟩] 1 "A" = 0 := by
    norm_num [normSq, sitesOf, pivotValue, cellRows, dedupRows, firstUniqAux]
  have hmat : escape_similarity ([⟨"A", 1, 0⟩] : List Row) 1 =
      Except.error MdsError.domainError := by
    unfold escape_similarity
    rw [if_neg]
    intro hall
    exact hall "A" (by simp [conditionsOf, dedupRows, firstUniqAux]) hns
  unfold mds_group
  rw [if_pos (by simp), hfilter, hmat]

/- Claim theorems. -/

/-- C1: for the observation table {(A,1): 1, (A,2): 1, (B,1): 1, (B,2): 0}
with exponent p = 1, the pairwise similarity of conditions A and B equals
1/√2 ≈ 0.7071, and the `one_minus` dissimilarity transform of that
similarity is 1 − 1/√2 ≈ 0.2929. -/
theorem example_similarity_one_minus :
    simVal dfExample 1 "A" "B" = (Real.sqrt 2)⁻¹ ∧
    dissimilarity (simVal dfExample 1 "A" "B") "one_minus" =
      Except.ok (NumpyFloat.finite (1 - (Real.sqrt 2)⁻¹)) ∧
    |simVal dfExample 1 "A" "B" - 0.7071| < 0.001 ∧
    |(1 - (Real.sqrt 2)⁻¹) - 0.2929| < 0.001 := by
  have hdot : dotQ dfExample 1 "A" "B" = 1 := by
    simp +decide [dotQ, sitesOf, pivotValue, cellRows, dedupRows, firstUniqAux,
      dfExample]
  have hA : normSq dfExample 1 "A" = 2 := by
    simp +decide [normSq, sitesOf, pivotValue, cellRows, dedupRows, firstUniqAux,
      dfExample]
    norm_num
  have hB : normSq dfExample 1 "B" = 1 := by
    simp +decide [normSq, sitesOf, pivotValue, cellRows, dedupRows, firstUniqAux,
      dfExample]
  have hs : simVal dfExample 1 "A" "B" = (Real.sqrt 2)⁻¹ := by
    rw [simVal_eq_div, hdot, hA, hB]
    push_cast
    rw [Real.sqrt_one, mul_one, one_div]
  have h1 : (1.414 : ℝ) < Real.sqrt 2 := (Real.lt_sqrt (by norm_num)).mpr (by norm_num)
  have h2 : Real.sqrt 2 < 1.4143 := (Real.sqrt_lt' (by norm_num)).mpr (by norm_num)
  have h0 : (0 : ℝ) < Real.sqrt 2 := by positivity
  have hinv : (Real.sqrt 2)⁻¹ * Real.sqrt 2 = 1 := inv_mul_cancel₀ (ne_of_gt h0)
  have hlow : (0.7061 : ℝ) < (Real.sqrt 2)⁻¹ := by nlinarith
  have hhigh : ((Real.sqrt 2)⁻¹ : ℝ) < 0.7081 := by nlinarith
  refine ⟨hs, ?_, ?_, ?_⟩
  · unfold dissimilarity
    rw [if_pos rfl, hs]
  · rw [hs, abs_sub_lt_iff]
    constructor <;> nlinarith
  · rw [abs_sub_lt_iff]
    constructor <;> nlinarith

/-- C2: the diagonal entry of the full similarity matrix at any condition
with a non-zero-norm profile is produced by the same pairwise expression
as cross pairs and equals 1 within floating-point tolerance 1e-9 (it is
exactly 1 in the real-number semantics). -/
theorem diagonal_similarity_one (df : List Row) (p : ℕ) (i : ℕ)
    (hi : i < (conditionsOf df).length)
    (hn : normSq df p ((conditionsOf df).get ⟨i, hi⟩) ≠ 0) :
    entry (similarityRows df p) i i =
      simVal df p ((conditionsOf df).get ⟨i, hi⟩) ((conditionsOf df).get ⟨i, hi⟩) ∧
    |entry (similarityRows df p) i i - 1| ≤ 1e-9 := by
  have he := entry_similarityRows df p i i hi hi
  refine ⟨he, ?_⟩
  rw [he, simVal_self df p _ hn]
  norm_num

theorem diagonal_similarity_one_witness :
    |entry (similarityRows dfExample 1) 0 0 - 1| ≤ 1e-9 :=
  (diagonal_similarity_one dfExample 1 0 (by decide)
    (by show normSq dfExample 1 "A" ≠ 0
        simp +decide [normSq, sitesOf, pivotValue, cellRows, dedupRows, firstUniqAux,
          dfExample])).2

/-- C3: the computed similarity matrix is symmetric; the entry at row i,
column j equals the entry at row j, column i for every pair of positions
in the condition set. -/
theorem similarity_matrix_symmetric (df : List Row) (p : ℕ) (i j : ℕ)
    (hi : i < (conditionsOf df).length) (hj : j < (conditionsOf df).length) :
    entry (similarityRows df p) i j = entry (similarityRows df p) j i := by
  rw [entry_similarityRows df p i j hi hj, entry_similarityRows df p j i hj hi]
  exact simVal_comm df p _ _

theorem similarity_matrix_symmetric_witness :
    entry (similarityRows dfExample 1) 0 1 = entry (similarityRows dfExample 1) 1 0 :=
  similarity_matrix_symmetric dfExample 1 0 1 (by decide) (by decide)

/-- The observation table of C4: condition A observed only at site 1
(value 2), condition B observed only at site 2 (value 3). -/
def dfOrtho : List Row := [⟨"A", 1, 2⟩, ⟨"B", 2, 3⟩]

/-- C4: sites absent from a condition's observations are filled with 0
over the full site universe (A gets 0 at site 2 and B gets 0 at site 1),
and the resulting zero-filled profiles of A and B are orthogonal, so the
pairwise similarity returns 0. -/
theorem zero_fill_orthogonal :
    pivotValue dfOrtho 1 "A" 2 = 0 ∧ pivotValue dfOrtho 1 "B" 1 = 0 ∧
    pairwise_similarity dfOrtho 1 "A" "B" = Except.ok 0 := by
  have hAB : ("A" : String) ≠ "B" := by decide
  have hBA : ("B" : String) ≠ "A" := by decide
  have hA2 : pivotValue dfOrtho 1 "A" 2 = 0 := by
    norm_num [pivotValue, cellRows, dedupRows, firstUniqAux, dfOrtho, hAB, hBA]
  have hB1 : pivotValue dfOrtho 1 "B" 1 = 0 := by
    norm_num [pivotValue, cellRows, dedupRows, firstUniqAux, dfOrtho, hAB, hBA]
  have hdot : dotQ dfOrtho 1 "A" "B" = 0 := by
    norm_num [dotQ, sitesOf, pivotValue, cellRows, dedupRows, firstUniqAux,
      dfOrtho, hAB, hBA]
  have hA : normSq dfOrtho 1 "A" = 4 := by
    norm_num [normSq, sitesOf, pivotValue, cellRows, dedupRows, firstUniqAux,
      dfOrtho, hAB, hBA]
  have hB : normSq dfOrtho 1 "B" = 9 := by
    norm_num [normSq, sitesOf, pivotValue, cellRows, dedupRows, firstUniqAux,
      dfOrtho, hAB, hBA]
  have hsim : simVal dfOrtho 1 "A" "B" = 0 := by
    rw [simVal_eq_div, hdot]
    push_cast
    rw [zero_div]
  refine ⟨hA2, hB1, ?_⟩
  unfold pairwise_similarity
  rw [if_neg (by simp [hA, hB]), hsim]

/-- C5 (counterexample): at the non-positive similarity s = 0 the
`minus_log` dissimilarity does not fail — `numpy.log(0)` yields `-inf`
with only a RuntimeWarning, so the operation returns the value `+inf`,
and in particular does not produce a DomainError. -/
theorem minus_log_returns_value :
    dissimilarity (0 : ℝ) "minus_log" = Except.ok NumpyFloat.posInf ∧
    dissimilarity (0 : ℝ) "minus_log" ≠ Except.error MdsError.domainError := by
  have hone : ("minus_log" : String) ≠ "one_minus" := by decide
  have h : dissimilarity (0 : ℝ) "minus_log" = Except.ok NumpyFloat.posInf := by
    unfold dissimilarity
    rw [if_neg hone, if_pos rfl, if_pos rfl]
  refine ⟨h, ?_⟩
  rw [h]
  simp

/-- C5 (amended): for a non-positive similarity the `minus_log`
dissimilarity does not fail with a DomainError; it returns a non-finite
value — `+inf` at s = 0 and NaN for s < 0 — accompanied only by a
RuntimeWarning; for s > 0 it returns the finite value −ln s, so at s = 1
it returns 0. -/
theorem minus_log_dissimilarity (s : ℝ) :
    (s = 0 → dissimilarity s "minus_log" = Except.ok NumpyFloat.posInf) ∧
    (s < 0 → dissimilarity s "minus_log" = Except.ok NumpyFloat.nan) ∧
    (0 < s → dissimilarity s "minus_log" =
      Except.ok (NumpyFloat.finite (-Real.log s))) ∧
    dissimilarity (1 : ℝ) "minus_log" = Except.ok (NumpyFloat.finite 0) := by
  have hone : ("minus_log" : String) ≠ "one_minus" := by decide
  refine ⟨?_, ?_, ?_, ?_⟩
  · intro h
    unfold dissimilarity
    rw [if_neg hone, if_pos rfl, if_pos h]
  · intro h
    unfold dissimilarity
    rw [if_neg hone, if_pos rfl, if_neg (ne_of_lt h), if_pos h]
  · intro h
    unfold dissimilarity
    rw [if_neg hone, if_pos rfl, if_neg (ne_of_gt h), if_neg (not_lt.mpr h.le)]
  · unfold dissimilarity
    rw [if_neg hone, if_pos rfl, if_neg (by norm_num), if_neg (by norm_num),
      Real.log_one, neg_zero]

theorem minus_log_dissimilarity_witness :
    dissimilarity (0 : ℝ) "minus_log" = Except.ok NumpyFloat.posInf ∧
    dissimilarity (-1 : ℝ) "minus_log" = Except.ok NumpyFloat.nan ∧
    dissimilarity (2 : ℝ) "minus_log" = Except.ok (NumpyFloat.finite (-Real.log 2)) :=
  ⟨(minus_log_dissimilarity 0).1 rfl,
   (minus_log_dissimilarity (-1)).2.1 (by norm_num),
   (minus_log_dissimilarity 2).2.2.1 (by norm_num)⟩

/-- C6 (counterexample): with an unknown dissimilarity method configured,
a group run over a zero-profile table fails with the similarity-stage
DomainError, not with InvalidConfiguration — the unknown-method failure
does not occur before the similarity-matrix computation, because the
matrix is computed first and its error wins. -/
theorem invalid_method_not_before_matrix :
    mds_group [⟨"A", 1, 0⟩] ["A"] "bogus" = Except.error MdsError.domainError ∧
    mds_group [⟨"A", 1, 0⟩] ["A"] "bogus" ≠
      Except.error (MdsError.invalidConfiguration "bogus") := by
  refine ⟨mds_group_zero_profile "bogus", ?_⟩
  rw [mds_group_zero_profile "bogus"]
  simp

/-- C6 (amended): for every method name other than `one_minus` and
`minus_log`, the dissimilarity operation always fails with an
InvalidConfiguration error; inside a group run, however, this failure
surfaces only when the transform is applied to the already-computed
similarity matrix, so a similarity-stage error takes precedence over the
configuration error. -/
theorem invalid_method_invalid_configuration (m : String)
    (h1 : m ≠ "one_minus") (h2 : m ≠ "minus_log") :
    (∀ s : ℝ, dissimilarity s m = Except.error (MdsError.invalidConfiguration m)) ∧
    mds_group [⟨"A", 1, 0⟩] ["A"] m = Except.error MdsError.domainError := by
  refine ⟨?_, mds_group_zero_profile m⟩
  intro s
  unfold dissimilarity
  rw [if_neg h1, if_neg h2]

theorem invalid_method_invalid_configuration_witness :
    dissimilarity (0 : ℝ) "bogus" =
      Except.error (MdsError.invalidConfiguration "bogus") ∧
    mds_group [⟨"A", 1, 0⟩] ["A"] "bogus" = Except.error MdsError.domainError :=
  ⟨(invalid_method_invalid_configuration "bogus" (by decide) (by decide)).1 0,
   (invalid_method_invalid_configuration "bogus" (by decide) (by decide)).2⟩

/-- C7: a condition requested for a group but absent from the observation
table makes the group computation fail with InvalidInput (the failed
subset assertion), rather than silently skipping the condition or
producing an all-zero row for it. -/
theorem missing_condition_invalid_input (ef : List Row) (ctp : List String)
    (c m : String) (h1 : c ∈ ctp) (h2 : c ∉ ef.map Row.condition) :
    mds_group ef ctp m = Except.error MdsError.invalidInput := by
  unfold mds_group
  rw [if_neg]
  intro hall
  exact h2 (hall c h1)

theorem missing_condition_invalid_input_witness :
    mds_group [⟨"A", 1, 1⟩] ["B"] "one_minus" = Except.error MdsError.invalidInput :=
  missing_condition_invalid_input _ _ "B" _ (by decide) (by decide)

/-- C8: when a condition's zero-filled, exponentiated profile column is
all-zero over the site universe — so its Euclidean norm is exactly zero —
the pairwise similarity computation fails with a DomainError instead of
returning a similarity value. -/
theorem zero_norm_domain_error (df : List Row) (p : ℕ) (c1 c2 : String)
    (h : ∀ s ∈ sitesOf df, pivotValue df p c1 s = 0) :
    pairwise_similarity df p c1 c2 = Except.error MdsError.domainError := by
  have hz : normSq df p c1 = 0 := by
    unfold normSq
    apply List.sum_eq_zero
    intro x hx
    obtain ⟨s, hs, rfl⟩ := List.mem_map.mp hx
    rw [h s hs]
    ring
  unfold pairwise_similarity
  rw [if_pos (Or.inl hz)]

theorem zero_norm_domain_error_witness :
    pairwise_similarity [⟨"A", 1, 0⟩, ⟨"B", 1, 1⟩] 1 "A" "B" =
      Except.error MdsError.domainError :=
  zero_norm_domain_error _ 1 "A" "B" (by
    simp +decide [sitesOf, dedupRows, firstUniqAux, pivotValue, cellRows])

/-- The two-site table of C9: condition C has profile [0.9, 0.1] and
condition D has profile [0.1, 0.9] over the same two sites. -/
def dfTwoSite : List Row :=
  [⟨"C", 1, 9/10⟩, ⟨"C", 2, 1/10⟩, ⟨"D", 1, 1/10⟩, ⟨"D", 2, 9/10⟩]

/-- The similarity of the two C9 profiles at exponent p, in closed form:
both columns have the same squared norm, so the product of the two square
roots collapses to that rational. -/
theorem dfTwoSite_simVal (p : ℕ) (d n : ℚ) (hd : dotQ dfTwoSite p "C" "D" = d)
    (hC : normSq dfTwoSite p "C" = n) (hD : normSq dfTwoSite p "D" = n)
    (hn : 0 ≤ n) :
    simVal dfTwoSite p "C" "D" = (d : ℝ) / (n : ℝ) := by
  rw [simVal_eq_div, hd, hC, hD, Real.mul_self_sqrt (by exact_mod_cast hn)]

/-- C9: for the two profiles [0.9, 0.1] and [0.1, 0.9], the pairwise
similarity strictly decreases as the exponent p increases through 1, 2, 3,
approaching 0: it stays positive and is already below 1/100 at p = 3. -/
theorem similarity_decreasing_in_p :
    simVal dfTwoSite 2 "C" "D" < simVal dfTwoSite 1 "C" "D" ∧
    simVal dfTwoSite 3 "C" "D" < simVal dfTwoSite 2 "C" "D" ∧
    0 < simVal dfTwoSite 3 "C" "D" ∧
    simVal dfTwoSite 3 "C" "D" < 1 / 100 := by
  have h1 : simVal dfTwoSite 1 "C" "D" = ((9 / 50 : ℚ) : ℝ) / ((41 / 50 : ℚ) : ℝ) := by
    refine dfTwoSite_simVal 1 _ _ ?_ ?_ ?_ (by norm_num)
    · simp +decide [dotQ, sitesOf, pivotValue, cellRows, dedupRows, firstUniqAux,
        dfTwoSite]
      norm_num
    · simp +decide [normSq, sitesOf, pivotValue, cellRows, dedupRows, firstUniqAux,
        dfTwoSite]
      norm_num
    · simp +decide [normSq, sitesOf, pivotValue, cellRows, dedupRows, firstUniqAux,
        dfTwoSite]
      norm_num
  have h2 : simVal dfTwoSite 2 "C" "D" =
      ((81 / 5000 : ℚ) : ℝ) / ((3281 / 5000 : ℚ) : ℝ) := by
    refine dfTwoSite_simVal 2 _ _ ?_ ?_ ?_ (by norm_num)
    · simp +decide [dotQ, sitesOf, pivotValue, cellRows, dedupRows, firstUniqAux,
        dfTwoSite]
      norm_num
    · simp +decide [normSq, sitesOf, pivotValue, cellRows, dedupRows, firstUniqAux,
        dfTwoSite]
      norm_num
    · simp +decide [normSq, sitesOf, pivotValue, cellRows, dedupRows, firstUniqAux,
        dfTwoSite]
      norm_num
  have h3 : simVal dfTwoSite 3 "C" "D" =
      ((729 / 500000 : ℚ) : ℝ) / ((265721 / 500000 : ℚ) : ℝ) := by
    refine dfTwoSite_simVal 3 _ _ ?_ ?_ ?_ (by norm_num)
    · simp +decide [dotQ, sitesOf, pivotValue, cellRows, dedupRows, firstUniqAux,
        dfTwoSite]
      norm_num
    · simp +decide [normSq, sitesOf, pivotValue, cellRows, dedupRows, firstUniqAux,
        dfTwoSite]
      norm_num
    · simp +decide [normSq, sitesOf, pivotValue, cellRows, dedupRows, firstUniqAux,
        dfTwoSite]
      norm_num
  rw [h1, h2, h3]
  push_cast
  norm_num

/-- The duplicate-laden table of C10: condition A carries an exact
duplicate observation at site 1 together with a conflicting second value
at the same site, plus a site-2 observation; condition B has a single
observation at site 1. -/
def dfDup (v1 v2 : ℚ) : List Row :=
  [⟨"A", 1, v1⟩, ⟨"A", 1, v1⟩, ⟨"A", 1, v2⟩, ⟨"A", 2, 4⟩, ⟨"B", 1, 1⟩]

/-- The same table with conflicting values for (A, 1) replaced by a
single observation holding their arithmetic mean. -/
def dfAvg (v1 v2 : ℚ) : List Row :=
  [⟨"A", 1, (v1 + v2) / 2⟩, ⟨"A", 2, 4⟩, ⟨"B", 1, 1⟩]

/-- C10: two observations of the same (condition, site) pair with
differing metric values do not make the similarity computation fail:
the exact duplicate row is dropped, the two remaining conflicting values
are aggregated by their arithmetic mean in the pivot step, and a
similarity value is returned — equal to the one obtained from a table
holding a single averaged observation. -/
theorem duplicates_mean_aggregated (v1 v2 : ℚ) (h : v1 ≠ v2) :
    pairwise_similarity (dfDup v1 v2) 1 "A" "B" =
      pairwise_similarity (dfAvg v1 v2) 1 "A" "B" ∧
    ∃ x, pairwise_similarity (dfDup v1 v2) 1 "A" "B" = Except.ok x := by
  have hded : dedupRows (dfDup v1 v2) =
      [⟨"A", 1, v1⟩, ⟨"A", 1, v2⟩, ⟨"A", 2, 4⟩, ⟨"B", 1, 1⟩] := by
    simp +decide [dedupRows, firstUniqAux, dfDup, Row.mk.injEq, h, Ne.symm h]
  have hded' : dedupRows (dfAvg v1 v2) =
      [⟨"A", 1, (v1 + v2) / 2⟩, ⟨"A", 2, 4⟩, ⟨"B", 1, 1⟩] := by
    simp +decide [dedupRows, firstUniqAux, dfAvg, Row.mk.injEq]
  have hsites : sitesOf (dfDup v1 v2) = [1, 2] := by
    simp +decide [sitesOf, dedupRows, firstUniqAux, dfDup, Row.mk.injEq, h, Ne.symm h]
  have hsites' : sitesOf (dfAvg v1 v2) = [1, 2] := by
    simp +decide [sitesOf, dedupRows, firstUniqAux, dfAvg, Row.mk.injEq]
  have hA1 : pivotValue (dfDup v1 v2) 1 "A" 1 = (v1 + v2) / 2 := by
    simp +decide [pivotValue, cellRows, hded]
  have hA2 : pivotValue (dfDup v1 v2) 1 "A" 2 = 4 := by
    simp +decide [pivotValue, cellRows, hded]
  have hB1 : pivotValue (dfDup v1 v2) 1 "B" 1 = 1 := by
    simp +decide [pivotValue, cellRows, hded]
  have hB2 : pivotValue (dfDup v1 v2) 1 "B" 2 = 0 := by
    simp +decide [pivotValue, cellRows, hded]
  have hA1' : pivotValue (dfAvg v1 v2) 1 "A" 1 = (v1 + v2) / 2 := by
    simp +decide [pivotValue, cellRows, hded']
  have hA2' : pivotValue (dfAvg v1 v2) 1 "A" 2 = 4 := by
    simp +decide [pivotValue, cellRows, hded']
  have hB1' : pivotValue (dfAvg v1 v2) 1 "B" 1 = 1 := by
    simp +decide [pivotValue, cellRows, hded']
  have hB2' : pivotValue (dfAvg v1 v2) 1 "B" 2 = 0 := by
    simp +decide [pivotValue, cellRows, hded']
  have hnA : normSq (dfDup v1 v2) 1 "A" = ((v1 + v2) / 2) ^ 2 + 16 := by
    simp [normSq, hsites, hA1, hA2]
    norm_num
  have hnA' : normSq (dfAvg v1 v2) 1 "A" = ((v1 + v2) / 2) ^ 2 + 16 := by
    simp [normSq, hsites', hA1', hA2']
    norm_num
  have hnB : normSq (dfDup v1 v2) 1 "B" = 1 := by
    simp [normSq, hsites, hB1, hB2]
  have hnB' : normSq (dfAvg v1 v2) 1 "B" = 1 := by
    simp [normSq, hsites', hB1', hB2']
  have hdot : dotQ (dfDup v1 v2) 1 "A" "B" = (v1 + v2) / 2 := by
    simp [dotQ, hsites, hA1, hA2, hB1, hB2]
  have hdot' : dotQ (dfAvg v1 v2) 1 "A" "B" = (v1 + v2) / 2 := by
    simp [dotQ, hsites', hA1', hA2', hB1', hB2']
  have hsim : simVal (dfDup v1 v2) 1 "A" "B" = simVal (dfAvg v1 v2) 1 "A" "B" := by
    rw [simVal_eq_div, simVal_eq_div, hdot, hdot', hnA, hnA', hnB, hnB']
  have hne : ¬(normSq (dfDup v1 v2) 1 "A" = 0 ∨ normSq (dfDup v1 v2) 1 "B" = 0) := by
    rw [hnA, hnB]
    push_neg
    exact ⟨by positivity, by norm_num⟩
  have hne' : ¬(normSq (dfAvg v1 v2) 1 "A" = 0 ∨ normSq (dfAvg v1 v2) 1 "B" = 0) := by
    rw [hnA', hnB']
    push_neg
    exact ⟨by positivity, by norm_num⟩
  constructor
  · unfold pairwise_similarity
    rw [if_neg hne, if_neg hne', hsim]
  · exact ⟨simVal (dfDup v1 v2) 1 "A" "B", by unfold pairwise_similarity; rw [if_neg hne]⟩

theorem duplicates_mean_aggregated_witness :
    pairwise_similarity (dfDup 2 4) 1 "A" "B" =
      pairwise_similarity (dfAvg 2 4) 1 "A" "B" ∧
    ∃ x, pairwise_similarity (dfDup 2 4) 1 "A" "B" = Except.ok x :=
  duplicates_mean_aggregated 2 4 (by norm_num)
